import Mathlib

/-!
Verification development for the "Blind Teacher" voice-first web front-end.

The definitions below are a shallow embedding of the reviewed sources:
  - src/hooks/useVoice.ts        (the shared voice hook used by the dashboard)
  - src/pages/Login.tsx          (login screen: its local voice hook and the
                                  voice command processing effect)
  - src/pages/Dashboard.tsx      (dashboard: the voice command dispatch chain)

Strings are modelled with Lean `String`/`List Char`; the JavaScript string
operations used by the sources (`includes`, `toLowerCase`, `trim`,
`replace(/\b...\b/gi, d)`, `replace(/\D/g, '')`, `slice(0, 6)`) are
reimplemented faithfully for ASCII input.  Stateful React code is modelled as
explicit state passing: each handler is a pure function from state to a new
state together with the ordered list of externally visible effects it issues
(tones, speech-synthesis requests, persistent-storage writes, navigations and
log output).
-/

namespace BlindTeacher

/-! ## JavaScript string primitives -/

/-- JavaScript word character, the `\w` class: `[A-Za-z0-9_]`. -/
def isWordChar (c : Char) : Bool := c.isAlphanum || c = '_'

/-- `String.prototype.toLowerCase` restricted to ASCII input. -/
def jsToLower (s : String) : String := String.mk (s.toList.map Char.toLower)

/-- `String.prototype.trim`: strip leading and trailing whitespace. -/
def jsTrim (s : String) : String :=
  String.mk (((s.toList.dropWhile Char.isWhitespace).reverse.dropWhile
    Char.isWhitespace).reverse)

/-- Substring test on character lists, the semantics of
`String.prototype.includes`. -/
def containsSub (hay needle : List Char) : Bool :=
  match hay with
  | [] => needle.isEmpty
  | _ :: t => needle.isPrefixOf hay || containsSub t needle

/-- `command.includes(sub)` from the sources. -/
def strContains (s sub : String) : Bool := containsSub s.toList sub.toList

/-- Whether a position following `prev` is a `\b` boundary before a word
character (true when there is no previous character or it is not a word
character). -/
def boundaryBefore (prev : Option Char) : Bool :=
  match prev with
  | none => true
  | some c => !isWordChar c

/-- Whether the position before `rest` is a `\b` boundary after a word
character (true at end of input or before a non-word character). -/
def boundaryAfter (rest : List Char) : Bool :=
  match rest with
  | [] => true
  | c :: _ => !isWordChar c

/-- Fuel-driven scan implementing `str.replace(new RegExp

("\\b" + w + "\\b", "gi"), d)` on an already lower-cased character list:
left-to-right, non-overlapping matches of the word `w` at `\b` boundaries of
the original text, each replaced by the single character `d`. -/
def replaceWordGo (w : List Char) (d : Char) :
    Nat → Option Char → List Char → List Char
  | 0, _, l => l
  | _ + 1, _, [] => []
  | fuel + 1, prev, c :: rest =>
    if w.isPrefixOf (c :: rest) && boundaryBefore prev &&
        boundaryAfter ((c :: rest).drop w.length) then
      d :: replaceWordGo w d fuel w.getLast? ((c :: rest).drop w.length)
    else
      c :: replaceWordGo w d fuel (some c) rest

/-- Replace every whole-word occurrence of `w` in `l` by the digit `d`. -/
def replaceWord (l : List Char) (w : List Char) (d : Char) : List Char :=
  replaceWordGo w d l.length none l

/-! ## Login screen: credential capture model (src/pages/Login.tsx) -/

/-- The `numberWords` table of Login.tsx lines 567-571, in object insertion
order. -/
def numberWords : List (List Char × Char) :=
  [("zero".toList, '0'), ("one".toList, '1'), ("two".toList, '2'),
   ("three".toList, '3'), ("four".toList, '4'), ("five".toList, '5'),
   ("six".toList, '6'), ("seven".toList, '7'), ("eight".toList, '8'),
   ("nine".toList, '9'), ("oh".toList, '0'), ("to".toList, '2'),
   ("too".toList, '2'), ("for".toList, '4'), ("fore".toList, '4'),
   ("ate".toList, '8')]

/-- The sequential `Object.entries(numberWords).forEach(... replace ...)`
loop of Login.tsx lines 573-576. -/
def applyNumberWords (l : List Char) : List Char :=
  numberWords.foldl (fun acc p => replaceWord acc p.1 p.2) l

/-- `processedCommand.replace(/\D/g, '')` applied after the number-word
substitution: the digit characters extracted from a command. -/
def digitsOf (command : String) : List Char :=
  (applyNumberWords command.toList).filter Char.isDigit

/-- The `hasNumbers` test of Login.tsx lines 552-553:
`/\d/.test(command) || /zero|one|...|nine/i.test(command)`
(plain substring tests, no word boundaries). -/
def hasNumbers (command : String) : Bool :=
  command.toList.any Char.isDigit ||
    ["zero", "one", "two", "three", "four", "five", "six", "seven",
     "eight", "nine"].any (fun w => strContains command w)

/-- `command.replace(/[^a-zA-Z0-9\s]/g, '').trim()` of Login.tsx line 556. -/
def cleanUsername (command : String) : String :=
  jsTrim (String.mk (command.toList.filter
    (fun c => c.isAlphanum || c.isWhitespace)))

/-- `AuthMode` of Login.tsx line 4. -/
inductive AuthMode where
  | welcome
  | login
  | register
  | help
deriving DecidableEq

/-- The observable effects a handler issues, in order: audio tones,
speech-synthesis requests, localStorage writes, navigations and console
output. -/
inductive Effect where
  | tone (kind : String)
  | speech (text : String)
  | store (key value : String)
  | navigate (path : String)
  | logInfo (msg : String)
  | logErr (msg : String)
deriving DecidableEq

/-- Is an effect a speech-synthesis request? -/
def Effect.isSpeech : Effect → Bool
  | .speech _ => true
  | _ => false

/-- Is an effect a persistent-storage write? -/
def Effect.isStore : Effect → Bool
  | .store _ _ => true
  | _ => false

/-- Is an effect a navigation? -/
def Effect.isNavigate : Effect → Bool
  | .navigate _ => true
  | _ => false

/-- The Login component state touched by the voice command effect:
`mode`, `username`, `pin`, `error`, `isProcessing` (Login.tsx lines
414-419). -/
structure LoginState where
  mode : AuthMode
  username : String
  pin : String
  error : String
  isProcessing : Bool
deriving DecidableEq

/-- The mode announcement strings of Login.tsx lines 455-460. -/
def modeMessage : AuthMode → String
  | .welcome => "Welcome screen. Say Login, Register, or Help."
  | .login => "Login mode. Say your username first, then say your pin numbers."
  | .register => "Register mode. Say your username, then your pin numbers."
  | .help => "Help mode. Available commands: Login, Register, Go back. Say your username, then numbers for PIN."

/-- `handleModeChange` of Login.tsx lines 445-463: play a click tone, set the
new mode, clear the error, clear the credential draft when returning to
`welcome`, and speak the mode message. -/
def handleModeChange (s : LoginState) (newMode : AuthMode) :
    LoginState × List Effect :=
  let s1 : LoginState :=
    if newMode = AuthMode.welcome then
      { s with mode := newMode, error := "", pin := "", username := "" }
    else
      { s with mode := newMode, error := "" }
  (s1, [Effect.tone "click", Effect.speech (modeMessage newMode)])

/-- `handleClearForm` of Login.tsx lines 465-471. -/
def handleClearForm (s : LoginState) : LoginState × List Effect :=
  ({ s with pin := "", username := "", error := "" },
   [Effect.speech "Form cleared. Say your username.",
    Effect.tone "notification"])

/-- `handleSubmit` of Login.tsx lines 473-499: validation fails when the
username is empty or the pin is shorter than four characters; otherwise the
processing flag is set, storage is written and navigation to the dashboard
is scheduled. -/
def handleSubmit (s : LoginState) : LoginState × List Effect :=
  if s.username = "" ∨ s.pin.length < 4 then
    ({ s with error := "Please provide username and at least 4-digit pin" },
     [Effect.speech "Error. Provide username and at least 4 digit pin.",
      Effect.tone "error"])
  else
    ({ s with isProcessing := true },
     [Effect.speech "Processing your request.",
      Effect.tone "success",
      Effect.speech "Login successful! Welcome to your dashboard.",
      Effect.store "isLoggedIn" "true",
      Effect.store "username" s.username,
      Effect.navigate "/dashboard"])

/-- Login navigation predicate for the login intent (Login.tsx line 511). -/
def navLoginB (c : String) : Bool :=
  strContains c "login" || strContains c "log in" || strContains c "sign in"

/-- Login navigation predicate for the register intent (line 517). -/
def navRegisterB (c : String) : Bool :=
  strContains c "register" || strContains c "sign up" ||
    strContains c "signup" || strContains c "create account"

/-- Login navigation predicate for the help intent (line 523). -/
def navHelpB (c : String) : Bool := strContains c "help"

/-- Login navigation predicate for returning to the welcome mode
(line 529). -/
def navBackB (c : String) : Bool :=
  strContains c "go back" || strContains c "back" ||
    strContains c "cancel" || strContains c "home"

/-- Form predicate for the clear command (line 538). -/
def clearB (c : String) : Bool :=
  strContains c "clear" || strContains c "clear form" ||
    strContains c "start over" || strContains c "reset"

/-- Form predicate for the submit command (line 544). -/
def submitB (c : String) : Bool :=
  strContains c "submit" || strContains c "confirm" ||
    strContains c "done" || strContains c "finish"

/-- The flattened username-capture condition of Login.tsx lines 551-563:
no username yet, no digit-like content, and at least two characters both
before and after stripping punctuation. -/
def usernameCondB (s : LoginState) (c : String) : Bool :=
  (s.username = "") && !(hasNumbers c) && (2 ≤ c.length) &&
    (2 ≤ (cleanUsername c).length)

/-- The spoken confirmation after capturing a username (line 559). -/
def usernameMsg (clean : String) : String :=
  "Username: " ++ clean ++ ". Now say PIN numbers, like one two three four."

/-- The spoken confirmation after appending PIN digits (lines 584-585). -/
def pinMsg (numbers : List Char) (finalPin : String) : String :=
  "Added " ++ String.mk (numbers.intersperse ' ') ++ ". PIN now has " ++
    toString finalPin.length ++ " digits."

/-- The spoken reminder on a digit-free unmatched utterance while a username
is already set (line 591). -/
def reminderMsg (username : String) : String :=
  "Username is " ++ username ++ ". Say numbers for PIN, or say clear to start over."

/-- The branch taken by the Login.tsx voice command effect.  One
constructor per early-returning branch of the source; `ignored` covers both
the fall-through in welcome or help mode and a digit-free utterance with no
username yet (both only play the notification tone). -/
inductive LIntent where
  | goLogin
  | goRegister
  | goHelp
  | goBack
  | clearForm
  | submitForm
  | captureUsername
  | appendPin
  | remindPin
  | ignored
deriving DecidableEq

/-- The branch selection of the Login.tsx voice command effect (lines
510-596), transcribed condition by condition in source order: the four
navigation predicates first, then - only in login or register mode - clear,
submit, the username-capture condition, the PIN-digit test, and the
username reminder. -/
def loginClassify (s : LoginState) (c : String) : LIntent :=
  if navLoginB c then .goLogin
  else if navRegisterB c then .goRegister
  else if navHelpB c then .goHelp
  else if navBackB c then .goBack
  else if s.mode = AuthMode.login ∨ s.mode = AuthMode.register then
    if clearB c then .clearForm
    else if submitB c then .submitForm
    else if usernameCondB s c then .captureUsername
    else if digitsOf c ≠ [] then .appendPin
    else if s.username ≠ "" then .remindPin
    else .ignored
  else .ignored

/-- The body of the Login.tsx voice command effect (lines 502-596) on an
already lower-cased and trimmed command: the notification tone plays first
(line 508), then the selected branch runs. -/
def processCore (s : LoginState) (c : String) : LoginState × List Effect :=
  let note := [Effect.tone "notification"]
  match loginClassify s c with
  | .goLogin =>
    let r := handleModeChange s AuthMode.login
    (r.1, note ++ r.2)
  | .goRegister =>
    let r := handleModeChange s AuthMode.register
    (r.1, note ++ r.2)
  | .goHelp =>
    let r := handleModeChange s AuthMode.help
    (r.1, note ++ r.2)
  | .goBack =>
    let r := handleModeChange s AuthMode.welcome
    (r.1, note ++ r.2)
  | .clearForm =>
    let r := handleClearForm s
    (r.1, note ++ r.2)
  | .submitForm =>
    let r := handleSubmit s
    (r.1, note ++ r.2)
  | .captureUsername =>
    ({ s with username := cleanUsername c },
     note ++ [Effect.speech (usernameMsg (cleanUsername c))])
  | .appendPin =>
    let numbers := digitsOf c
    let finalPin := String.mk ((s.pin.toList ++ numbers).take 6)
    ({ s with pin := finalPin },
     note ++ [Effect.speech (pinMsg numbers finalPin)])
  | .remindPin =>
    (s, note ++ [Effect.speech (reminderMsg s.username)])
  | .ignored =>
    (s, note)

/-- The Login.tsx voice command effect (lines 502-596): guard out empty and
blank results, lower-case and trim the transcript, then dispatch. -/
def processCommand (s : LoginState) (lastResult : String) :
    LoginState × List Effect :=
  if jsTrim lastResult = "" then (s, [])
  else processCore s (jsTrim (jsToLower lastResult))

example : (processCommand ⟨.login, "", "", "", false⟩ "rahul").1.username = "rahul" := by decide

example : (processCommand ⟨.login, "rahul", "", "", false⟩ "one two three four").1.pin = "1234" := by decide

/-! ## Dashboard: intent classification and dispatch (src/pages/Dashboard.tsx) -/

/-- `DashboardMode` of Dashboard.tsx line 23. -/
inductive DashboardMode where
  | home
  | teach
  | exam
  | level
  | schemes
  | jobs
  | history
deriving DecidableEq

/-- The closed intent set produced by the dashboard dispatch chain
(Dashboard.tsx lines 163-192); `repeatCmd` stands for the repeat intent and
`unrecognized` for a transcript matching no predicate. -/
inductive DIntent where
  | teach
  | exam
  | level
  | schemes
  | jobs
  | history
  | home
  | repeatCmd
  | logout
  | help
  | unrecognized
deriving DecidableEq

/-- The dashboard intent dispatch chain of Dashboard.tsx lines 163-192,
transcribed condition by condition in source order. -/
def dashClassify (c : String) : DIntent :=
  if strContains c "teach me" || strContains c "teach" then .teach
  else if strContains c "exam" || strContains c "prepare" then .exam
  else if strContains c "level" || strContains c "check" then .level
  else if strContains c "scheme" || strContains c "government" then .schemes
  else if strContains c "job" || strContains c "work" ||
      strContains c "employment" then .jobs
  else if strContains c "continue" || strContains c "resume" ||
      strContains c "history" then .history
  else if strContains c "home" || strContains c "dashboard" ||
      strContains c "main menu" then .home
  else if strContains c "repeat" || strContains c "say again" then .repeatCmd
  else if strContains c "logout" || strContains c "log out" ||
      strContains c "exit" then .logout
  else if strContains c "help" then .help
  else .unrecognized

/-- The per-mode instruction scripts of `speakModeInstructions`
(Dashboard.tsx lines 105-116). -/
def modeInstructions : DashboardMode → String
  | .home => "You are on your dashboard. You can say: Teach me, Prepare me for an exam, Find government schemes, Find jobs, Check my level, or Continue where we stopped."
  | .teach => "Teaching mode. Say any subject like mathematics, science, or history. I will explain it step by step."
  | .exam => "Exam preparation mode. Tell me which exam you are preparing for. I know about UPSC, SSC, bank exams, and more."
  | .level => "Level check mode. I will ask you questions to understand your knowledge. Say start when ready."
  | .schemes => "Government schemes for blind people. I can help with scholarships, pensions, skill development, and assistive devices."
  | .jobs => "Job search mode. I can find government jobs, private sector jobs, and work from home opportunities for visually impaired."
  | .history => "Your learning history. I remember your preferences and progress. Would you like to continue your last session?"

/-- The Dashboard component state touched by the voice command effect. -/
structure DashState where
  currentMode : DashboardMode
  isMuted : Bool
deriving DecidableEq

/-- The Dashboard.tsx voice command effect (lines 155-195): guard out empty
results, lower-case and trim, play the notification tone unless muted, then
act on the classified intent. -/
def processDashCommand (s : DashState) (lastResult : String) :
    DashState × List Effect :=
  if lastResult = "" then (s, [])
  else
    let c := jsTrim (jsToLower lastResult)
    let note := if s.isMuted then [] else [Effect.tone "notification"]
    match dashClassify c with
    | .teach =>
      ({ s with currentMode := .teach },
       note ++ [Effect.speech "Teaching mode activated. What subject would you like to learn? You can say mathematics, science, history, or any subject."])
    | .exam =>
      ({ s with currentMode := .exam },
       note ++ [Effect.speech "Exam preparation mode. Which exam are you preparing for? Say UPSC, SSC, or tell me the exam name."])
    | .level =>
      ({ s with currentMode := .level },
       note ++ [Effect.speech "Level assessment mode. I will ask you some questions to understand your knowledge level. Say start when ready."])
    | .schemes =>
      ({ s with currentMode := .schemes },
       note ++ [Effect.speech "Government schemes mode. I can help you find scholarships, pensions, and disability support programs. What would you like to explore?"])
    | .jobs =>
      ({ s with currentMode := .jobs },
       note ++ [Effect.speech "Job search mode. I can find accessible jobs in government, private sector, or work from home opportunities. What type of job interests you?"])
    | .history =>
      ({ s with currentMode := .history },
       note ++ [Effect.speech "Welcome back! Last time we were learning about mathematics. Would you like to continue, or start something new?"])
    | .home =>
      ({ s with currentMode := .home },
       note ++ [Effect.speech "You are on the main dashboard. Choose from: Teach me, Exam preparation, Check my level, Government schemes, Find jobs, or Continue learning."])
    | .repeatCmd =>
      (s, note ++ [Effect.speech (modeInstructions s.currentMode)])
    | .logout =>
      (s, note ++ [Effect.speech "Logging out. Goodbye!", Effect.navigate "/"])
    | .help =>
      (s, note ++ [Effect.speech "You can say: Teach me to learn subjects, Prepare for exam, Check my level, Find government schemes, Find jobs, or Continue learning. Say Home to return to main menu."])
    | .unrecognized => (s, note)

/-! ## The shared voice hook as an event machine (src/hooks/useVoice.ts)

The hook is callback-driven: application calls (`startListening`,
`stopListening`, `speak`, `stopSpeaking`) run synchronously, while the
platform delivers recognition and synthesis callbacks asynchronously.  We
model this as a step function over an explicit state that carries both the
React flags (`isListening`, `isSpeaking`, `transcript`, `lastResult`) and
the platform-side session state (whether a capture session is running or
requested, whether an utterance is pending or playing).  Each step returns
the platform requests the code issues, in order. -/

/-- A platform request issued by the voice controllers. -/
inductive Req where
  | startCapture
  | stopCapture
  | cancelSynth
  | speakSynth (text : String)
  | logI (msg : String)
  | logE (msg : String)
deriving DecidableEq

/-- State of the shared hook `useVoice` (src/hooks/useVoice.ts). -/
structure HookState where
  isListening : Bool
  isSpeaking : Bool
  transcript : String
  lastResult : String
  captureRunning : Bool
  captureRequested : Bool
  pendingUtter : Bool
  outputRunning : Bool
deriving DecidableEq

/-- Initial hook state: all flags false, empty transcripts. -/
def hookInit : HookState := ⟨false, false, "", "", false, false, false, false⟩

/-- Events of the shared hook: the four application calls and the platform
callbacks for recognition and synthesis. -/
inductive HookEv where
  | callStart
  | callStop
  | callSpeak (text : String)
  | callStopSpeaking
  | recogStarted
  | recogResult (interim final : String)
  | recogEnded
  | recogError (code : String)
  | utterStarted
  | utterEnded
  | utterError
deriving DecidableEq

/-- Which events the platform can deliver in a given state: callbacks only
fire for sessions or utterances that actually exist; application calls are
always possible. -/
def hookEnabled (s : HookState) : HookEv → Bool
  | .recogStarted => s.captureRequested
  | .recogResult _ _ => s.captureRunning
  | .recogEnded => s.captureRunning
  | .recogError _ => s.captureRunning || s.captureRequested
  | .utterStarted => s.pendingUtter
  | .utterEnded => s.outputRunning
  | .utterError => s.outputRunning || s.pendingUtter
  | _ => true

/-- One step of the shared hook (src/hooks/useVoice.ts).
`callStart` is lines 140-159: cancel synthesis, force the speaking flag
false, clear the transcript and try to start recognition, swallowing the
failure when a session already exists.  `callStop` is lines 161-170.
`callSpeak` is lines 172-202: cancel any in-flight output and queue the new
utterance - note that it does not stop capture.  The recognition callbacks
are lines 92-131 and the utterance callbacks lines 187-199. -/
def hookStep (s : HookState) : HookEv → HookState × List Req
  | .callStart =>
    let s1 := { s with outputRunning := false, pendingUtter := false,
                       isSpeaking := false, transcript := "" }
    if s1.captureRunning || s1.captureRequested then
      (s1, [Req.cancelSynth, Req.logI "Recognition already started or error"])
    else
      ({ s1 with captureRequested := true }, [Req.cancelSynth, Req.startCapture])
  | .callStop => ({ s with isListening := false }, [Req.stopCapture])
  | .callSpeak t =>
    ({ s with outputRunning := false, pendingUtter := true,
              isSpeaking := if s.outputRunning then false else s.isSpeaking },
     [Req.cancelSynth, Req.speakSynth t])
  | .callStopSpeaking =>
    ({ s with outputRunning := false, pendingUtter := false,
              isSpeaking := false }, [Req.cancelSynth])
  | .recogStarted =>
    ({ s with captureRequested := false, captureRunning := true,
              isListening := true },
     [Req.logI "Speech recognition started"])
  | .recogResult interim final =>
    if final ≠ "" then
      ({ s with lastResult := jsTrim final, transcript := jsTrim final }, [])
    else if interim ≠ "" then
      ({ s with transcript := interim }, [])
    else (s, [])
  | .recogEnded =>
    ({ s with captureRunning := false, isListening := false },
     [Req.logI "Speech recognition ended"])
  | .recogError code =>
    ({ s with captureRunning := false, captureRequested := false,
              isListening := false },
     [Req.logI ("Speech recognition error: " ++ code)] ++
       (if code = "no-speech" || code = "aborted" then []
        else [Req.logE ("Speech recognition error: " ++ code)]))
  | .utterStarted =>
    ({ s with pendingUtter := false, outputRunning := true,
              isSpeaking := true }, [])
  | .utterEnded =>
    ({ s with outputRunning := false, isSpeaking := false }, [])
  | .utterError =>
    ({ s with outputRunning := false, pendingUtter := false,
              isSpeaking := false }, [Req.logI "Speech error"])

/-- Run the shared hook over a list of events. -/
def hookRun (s : HookState) : List HookEv → HookState
  | [] => s
  | e :: es => hookRun (hookStep s e).1 es

/-- A trace is valid when every event is enabled where it occurs. -/
def hookValid (s : HookState) : List HookEv → Bool
  | [] => true
  | e :: es => hookEnabled s e && hookValid (hookStep s e).1 es

/-! ## The login screen's local voice controller (src/pages/Login.tsx 7-169)

The login screen duplicates the controller ad hoc, with three differences
that matter here: a `shouldRestartRef` auto-restart flag, a speak that stops
capture first, and restart timers armed by the utterance-end and
recognition-end callbacks. -/

/-- State of the Login.tsx local `useVoice` controller. -/
structure LVState where
  isListening : Bool
  isSpeaking : Bool
  shouldRestart : Bool
  transcript : String
  lastResult : String
  captureRunning : Bool
  captureRequested : Bool
  pendingUtter : Bool
  outputRunning : Bool
  speechTimerArmed : Bool
  endTimerArmed : Bool
deriving DecidableEq

/-- Initial state of the login controller: `shouldRestartRef` starts true
(Login.tsx line 14). -/
def lvInit : LVState :=
  ⟨false, false, true, "", "", false, false, false, false, false, false⟩

/-- Events of the login controller: application calls, the two restart
timers (the 50 ms timer armed by `utterance.onend` and the 100 ms timer
armed by `recognition.onend`), and the platform callbacks. -/
inductive LVEv where
  | callStart
  | callStop
  | callSpeak (text : String)
  | speechTimer
  | endTimer
  | recogStarted
  | recogResult (txt : String) (isFinal : Bool)
  | recogEnded
  | recogError (code : String)
  | utterStarted
  | utterEnded
deriving DecidableEq

/-- Enabled events of the login controller. -/
def lvEnabled (s : LVState) : LVEv → Bool
  | .speechTimer => s.speechTimerArmed
  | .endTimer => s.endTimerArmed
  | .recogStarted => s.captureRequested
  | .recogResult _ _ => s.captureRunning
  | .recogEnded => s.captureRunning
  | .recogError _ => s.captureRunning || s.captureRequested
  | .utterStarted => s.pendingUtter
  | .utterEnded => s.outputRunning
  | _ => true

/-- One step of the Login.tsx local voice controller.
`callStart` is lines 81-94 (no-op while listening; re-arms auto-restart and
optimistically sets the listening flag).  `callStop` is lines 96-107 (clears
auto-restart, stops recognition).  `callSpeak` is lines 109-151: when
listening it clears auto-restart and requests recognition stop, then cancels
synthesis and queues the utterance.  `utterEnded` is the `utterance.onend`
handler of lines 128-147, which re-arms auto-restart unconditionally and
arms the 50 ms restart timer; `speechTimer` is that timer's callback.
`recogEnded` is the `recognition.onend` handler of lines 49-65, which arms
the 100 ms restart timer when auto-restart is set and synthesis is not
speaking; `endTimer` is that timer's callback.  `recogError` is the handler
of lines 45-47, which only logs. -/
def lvStep (s : LVState) : LVEv → LVState × List Req
  | .callStart =>
    if s.isListening then (s, [])
    else
      let s1 := { s with transcript := "", lastResult := "",
                         shouldRestart := true }
      if s1.captureRunning || s1.captureRequested then
        (s1, [Req.logE "Error starting recognition"])
      else
        ({ s1 with captureRequested := true, isListening := true },
         [Req.startCapture])
  | .callStop =>
    let s1 := { s with shouldRestart := false }
    if s1.isListening then
      ({ s1 with isListening := false }, [Req.stopCapture])
    else (s1, [])
  | .callSpeak t =>
    let s1 := if s.isListening then { s with shouldRestart := false } else s
    let r1 := if s.isListening then [Req.stopCapture] else []
    ({ s1 with outputRunning := false, pendingUtter := true },
     r1 ++ [Req.cancelSynth, Req.speakSynth t])
  | .speechTimer =>
    let s1 := { s with speechTimerArmed := false }
    if s1.captureRunning || s1.captureRequested then
      (s1, [Req.logI "Restart handled by onend"])
    else
      ({ s1 with captureRequested := true, isListening := true },
       [Req.startCapture])
  | .endTimer =>
    let s1 := { s with endTimerArmed := false }
    if s1.captureRunning || s1.captureRequested then
      (s1, [Req.logI "Recognition restart skipped"])
    else
      ({ s1 with captureRequested := true, isListening := true },
       [Req.startCapture])
  | .recogStarted =>
    ({ s with captureRequested := false, captureRunning := true }, [])
  | .recogResult txt isFinal =>
    ({ s with transcript := txt,
              lastResult := if isFinal then txt else s.lastResult }, [])
  | .recogEnded =>
    let s1 := { s with captureRunning := false, isListening := false }
    if s1.shouldRestart && !s1.outputRunning then
      ({ s1 with endTimerArmed := true }, [Req.logI "Recognition ended"])
    else (s1, [Req.logI "Recognition ended"])
  | .recogError code =>
    (s, [Req.logE ("Speech recognition error: " ++ code)])
  | .utterStarted =>
    ({ s with pendingUtter := false, outputRunning := true,
              isSpeaking := true }, [Req.logI "Speaking started"])
  | .utterEnded =>
    ({ s with outputRunning := false, isSpeaking := false,
              shouldRestart := true, speechTimerArmed := true },
     [Req.logI "Speaking ended"])

/-- Run the login controller over a list of events. -/
def lvRun (s : LVState) : List LVEv → LVState
  | [] => s
  | e :: es => lvRun (lvStep s e).1 es

/-- A login controller trace is valid when every event is enabled where it
occurs. -/
def lvValid (s : LVState) : List LVEv → Bool
  | [] => true
  | e :: es => lvEnabled s e && lvValid (lvStep s e).1 es

/-! ## The dashboard dispatch chain as an ordered keyword table (for the
evaluation-order analysis) -/

/-- The dashboard dispatch chain of Dashboard.tsx lines 163-192 as an
ordered list of (keyword alternatives, intent) pairs, in source order. -/
def dashTable : List (List String × DIntent) :=
  [(["teach me", "teach"], .teach),
   (["exam", "prepare"], .exam),
   (["level", "check"], .level),
   (["scheme", "government"], .schemes),
   (["job", "work", "employment"], .jobs),
   (["continue", "resume", "history"], .history),
   (["home", "dashboard", "main menu"], .home),
   (["repeat", "say again"], .repeatCmd),
   (["logout", "log out", "exit"], .logout),
   (["help"], .help)]

/-- First-match resolution over an ordered keyword table. -/
def firstMatch : List (List String × DIntent) → String → DIntent
  | [], _ => .unrecognized
  | p :: rest, c =>
    if p.1.any (fun k => strContains c k) then p.2 else firstMatch rest c

/-! ## Helper lemmas -/

theorem filter_isDigit_all (l : List Char) :
    (l.filter Char.isDigit).all Char.isDigit = true := by
  induction l with
  | nil => rfl
  | cons c t ih =>
    by_cases h : Char.isDigit c
    · simp [List.filter_cons, h, ih]
    · simp [List.filter_cons, h, ih]

theorem all_take_of_all {p : Char → Bool} (l : List Char) (n : Nat)
    (h : l.all p = true) : (l.take n).all p = true := by
  rw [List.all_eq_true] at h ⊢
  intro x hx
  exact h x (List.take_subset n l hx)

theorem firstMatch_of_split (c : String) (pre post : List (List String × DIntent))
    (e : List String × DIntent)
    (hpre : ∀ p ∈ pre, p.1.any (fun k => strContains c k) = false)
    (he : e.1.any (fun k => strContains c k) = true) :
    firstMatch (pre ++ e :: post) c = e.2 := by
  induction pre with
  | nil => simp [firstMatch, he]
  | cons q t ih =>
    have hq : q.1.any (fun k => strContains c k) = false :=
      hpre q (List.mem_cons_self q t)
    have ht : ∀ p ∈ t, p.1.any (fun k => strContains c k) = false :=
      fun p hp => hpre p (List.mem_cons_of_mem q hp)
    simpa [firstMatch, hq] using ih ht

theorem dashClassify_eq_firstMatch (c : String) :
    dashClassify c = firstMatch dashTable c := by
  simp [dashClassify, firstMatch, dashTable, or_assoc]

theorem loginClassify_clear (s : LoginState) (c : String)
    (h : loginClassify s c = LIntent.clearForm) : clearB c = true := by
  unfold loginClassify at h
  repeat' split at h
  all_goals first | assumption | exact LIntent.noConfusion h

theorem loginClassify_back (s : LoginState) (c : String)
    (h : loginClassify s c = LIntent.goBack) : navBackB c = true := by
  unfold loginClassify at h
  repeat' split at h
  all_goals first | assumption | exact LIntent.noConfusion h

theorem loginClassify_username (s : LoginState) (c : String)
    (h : loginClassify s c = LIntent.captureUsername) :
    usernameCondB s c = true := by
  unfold loginClassify at h
  repeat' split at h
  all_goals first | assumption | exact LIntent.noConfusion h

theorem processCore_pin (s : LoginState) (c : String) :
    (processCore s c).1.pin = s.pin ∨ (processCore s c).1.pin = "" ∨
    (processCore s c).1.pin =
      String.mk ((s.pin.toList ++ digitsOf c).take 6) := by
  cases h : loginClassify s c <;>
    simp [processCore, h, handleModeChange, handleClearForm, handleSubmit]
  case submitForm => split_ifs <;> simp

theorem processCore_username (s : LoginState) (c : String)
    (hu : s.username ≠ "") :
    (processCore s c).1.username = s.username ∨
      ((processCore s c).1.username = "" ∧
        (clearB c = true ∨ navBackB c = true)) := by
  cases h : loginClassify s c <;>
    simp [processCore, h, handleModeChange, handleClearForm, handleSubmit]
  case goBack => exact Or.inr (Or.inr (loginClassify_back s c h))
  case clearForm => exact Or.inr (Or.inl (loginClassify_clear s c h))
  case submitForm => split_ifs <;> simp
  case captureUsername =>
    have hc := loginClassify_username s c h
    simp [usernameCondB, hu] at hc

theorem loginClassify_unmatched (s : LoginState) (c : String)
    (h1 : navLoginB c = false) (h2 : navRegisterB c = false)
    (h3 : navHelpB c = false) (h4 : navBackB c = false)
    (h5 : clearB c = false) (h6 : submitB c = false)
    (h7 : usernameCondB s c = false) (h8 : digitsOf c = []) :
    loginClassify s c =
      if (s.mode = AuthMode.login ∨ s.mode = AuthMode.register) ∧
          s.username ≠ ""
      then LIntent.remindPin else LIntent.ignored := by
  by_cases hm : s.mode = AuthMode.login ∨ s.mode = AuthMode.register <;>
    by_cases hv : s.username = "" <;>
      simp [loginClassify, h1, h2, h3, h4, h5, h6, h7, h8, hm, hv]

/-! ## Claim theorems -/

/-- C1 (counterexample): the mutual-exclusion claim fails on the shared hook.
In the valid trace startListening, capture-start, speak, output-start the
speak call (useVoice.ts lines 172-202) never stops capture, so at the end
the capture-active flag and the output-active flag are both true. -/
theorem capture_output_overlap_trace :
    hookValid hookInit
      [HookEv.callStart, HookEv.recogStarted, HookEv.callSpeak "hello",
       HookEv.utterStarted] = true ∧
    (hookRun hookInit
      [HookEv.callStart, HookEv.recogStarted, HookEv.callSpeak "hello",
       HookEv.utterStarted]).isListening = true ∧
    (hookRun hookInit
      [HookEv.callStart, HookEv.recogStarted, HookEv.callSpeak "hello",
       HookEv.utterStarted]).isSpeaking = true := by
  decide

/-- C1 (amended): mutual exclusion holds only at the level of the requests
each entry point issues, not of the sampled flags.  startListening in the
shared hook cancels any in-flight or pending output and forces the
output-active flag false before requesting capture, and the login screen's
speak, when capture is active, requests capture stop before requesting
output; but the flags themselves can overlap, as the counterexample
shows. -/
theorem exclusion_at_request_level :
    (∀ s : HookState,
      (hookStep s HookEv.callStart).1.isSpeaking = false ∧
      (hookStep s HookEv.callStart).1.pendingUtter = false ∧
      (hookStep s HookEv.callStart).1.outputRunning = false) ∧
    (∀ (s : LVState) (t : String), s.isListening = true →
      (lvStep s (LVEv.callSpeak t)).2 =
        [Req.stopCapture, Req.cancelSynth, Req.speakSynth t]) := by
  constructor
  · intro s
    simp only [hookStep]
    split <;> simp
  · intro s t h
    simp [lvStep, h]

/-- C1 (witness for the amended theorem). -/
theorem exclusion_at_request_level_witness :
    (hookStep hookInit HookEv.callStart).1.isSpeaking = false ∧
    (lvStep { lvInit with isListening := true } (LVEv.callSpeak "hi")).2 =
      [Req.stopCapture, Req.cancelSynth, Req.speakSynth "hi"] :=
  ⟨(exclusion_at_request_level.1 hookInit).1,
   exclusion_at_request_level.2 { lvInit with isListening := true } "hi" rfl⟩

/-- C2 (counterexample): the explicit-stop exception fails on the login
controller.  In the valid trace speak, output-start, stopListening,
output-end, settling timer, the output-end handler (Login.tsx lines 128-147)
re-arms shouldAutoRestart and restarts capture even though an explicit
stopListening was issued after the speak began: at the end the controller is
listening again and a capture start was requested. -/
theorem restart_despite_explicit_stop :
    lvValid lvInit
      [LVEv.callSpeak "x", LVEv.utterStarted, LVEv.callStop,
       LVEv.utterEnded, LVEv.speechTimer] = true ∧
    (lvRun lvInit
      [LVEv.callSpeak "x", LVEv.utterStarted, LVEv.callStop,
       LVEv.utterEnded, LVEv.speechTimer]).isListening = true ∧
    (lvRun lvInit
      [LVEv.callSpeak "x", LVEv.utterStarted, LVEv.callStop,
       LVEv.utterEnded, LVEv.speechTimer]).captureRequested = true := by
  decide

/-- C2 (amended): after any speak completes, the output-end handler
unconditionally re-arms shouldAutoRestart and arms the settling-delay timer
- regardless of any explicit stopListening issued after the speak began -
and when the timer fires with no capture session running or requested, the
controller requests capture and becomes listening.  The explicit-stop
suppression applies only to the capture-session-end restart path. -/
theorem speech_end_forces_restart (s : LVState)
    (hout : s.outputRunning = true)
    (hrun : s.captureRunning = false) (hreq : s.captureRequested = false) :
    lvEnabled s LVEv.utterEnded = true ∧
    (lvStep s LVEv.utterEnded).1.shouldRestart = true ∧
    (lvStep s LVEv.utterEnded).1.speechTimerArmed = true ∧
    (lvStep (lvStep s LVEv.utterEnded).1 LVEv.speechTimer).1.isListening = true ∧
    (lvStep (lvStep s LVEv.utterEnded).1 LVEv.speechTimer).1.captureRequested = true ∧
    Req.startCapture ∈ (lvStep (lvStep s LVEv.utterEnded).1 LVEv.speechTimer).2 := by
  simp [lvStep, lvEnabled, hout, hrun, hreq]

/-- C2 (witness for the amended theorem), at a state reached when
stopListening was issued during speech (shouldRestart already false). -/
theorem speech_end_forces_restart_witness :
    (⟨false, true, false, "", "", false, false, false, true, false, false⟩ :
      LVState).outputRunning = true ∧
    (lvStep (lvStep
      (⟨false, true, false, "", "", false, false, false, true, false, false⟩ :
        LVState) LVEv.utterEnded).1 LVEv.speechTimer).1.isListening = true :=
  ⟨rfl,
   (speech_end_forces_restart
     ⟨false, true, false, "", "", false, false, false, true, false, false⟩
     rfl rfl rfl).2.2.2.1⟩

/-- C3: submit fails validation exactly when the username is empty or the
pin is shorter than four digits; on failure it sets the error message,
speaks it and plays the error tone, with no storage write, no navigation
and no mode change; on success it writes the logged-in flag and the
username and navigates to the dashboard (handleSubmit, Login.tsx lines
473-499). -/
theorem submit_validation_contract (s : LoginState) :
    ((s.username = "" ∨ s.pin.length < 4) →
      handleSubmit s =
        ({ s with error := "Please provide username and at least 4-digit pin" },
         [Effect.speech "Error. Provide username and at least 4 digit pin.",
          Effect.tone "error"])) ∧
    (¬(s.username = "" ∨ s.pin.length < 4) →
      handleSubmit s =
        ({ s with isProcessing := true },
         [Effect.speech "Processing your request.",
          Effect.tone "success",
          Effect.speech "Login successful! Welcome to your dashboard.",
          Effect.store "isLoggedIn" "true",
          Effect.store "username" s.username,
          Effect.navigate "/dashboard"])) := by
  by_cases h : s.username = "" ∨ s.pin.length < 4
  · exact ⟨fun _ => by simp [handleSubmit, h], fun hc => absurd h hc⟩
  · exact ⟨fun hc => absurd hc h, fun _ => by simp [handleSubmit, h]⟩

/-- C3 (witness): the spec's own test vectors - an empty username with pin
123 fails with no store and no navigation, ana with pin 4821 succeeds. -/
theorem submit_validation_contract_witness :
    handleSubmit ⟨AuthMode.login, "", "123", "", false⟩ =
      (⟨AuthMode.login, "", "123",
        "Please provide username and at least 4-digit pin", false⟩,
       [Effect.speech "Error. Provide username and at least 4 digit pin.",
        Effect.tone "error"]) ∧
    handleSubmit ⟨AuthMode.login, "ana", "4821", "", false⟩ =
      (⟨AuthMode.login, "ana", "4821", "", true⟩,
       [Effect.speech "Processing your request.",
        Effect.tone "success",
        Effect.speech "Login successful! Welcome to your dashboard.",
        Effect.store "isLoggedIn" "true",
        Effect.store "username" "ana",
        Effect.navigate "/dashboard"]) :=
  ⟨(submit_validation_contract ⟨AuthMode.login, "", "123", "", false⟩).1
     (Or.inl rfl),
   (submit_validation_contract ⟨AuthMode.login, "ana", "4821", "", false⟩).2
     (by decide)⟩

/-- C6: on the dashboard the transcript "help me prepare for exam" resolves
to the exam intent, not the help intent, because the exam predicate is
tested before the help predicate in the fixed dispatch order of
Dashboard.tsx lines 163-192. -/
theorem order_sensitive_exam_vs_help :
    dashClassify "help me prepare for exam" = DIntent.exam ∧
    (processDashCommand ⟨DashboardMode.home, false⟩
      "help me prepare for exam").1.currentMode = DashboardMode.exam ∧
    DIntent.exam ≠ DIntent.help := by
  decide

/-- C8 (counterexample): the error taxonomy fails on the login screen's
handler (Login.tsx lines 45-47).  After a valid trace reaching the
listening state, a non-transient error code (network) leaves the capturing
flag true: no error code stops the capturing state there. -/
theorem login_error_handler_keeps_listening :
    lvValid lvInit
      [LVEv.callStart, LVEv.recogStarted, LVEv.recogError "network"] = true ∧
    ¬(("network" : String) = "no-speech" ∨ ("network" : String) = "aborted") ∧
    (lvRun lvInit
      [LVEv.callStart, LVEv.recogStarted,
       LVEv.recogError "network"]).isListening = true := by
  decide

/-- C8 (amended): in the shared hook every capture error - the transient
no-speech and aborted included - stops the capturing flag, is logged (with
an error-level log exactly for the non-transient codes) and propagates
nothing beyond logging; in the login screen's handler no error code changes
any state, every code being merely logged. -/
theorem error_handler_taxonomy :
    (∀ (s : LVState) (code : String),
      (lvStep s (LVEv.recogError code)).1 = s ∧
      (lvStep s (LVEv.recogError code)).2 =
        [Req.logE ("Speech recognition error: " ++ code)]) ∧
    (∀ (s : HookState) (code : String),
      (hookStep s (HookEv.recogError code)).1 =
        { s with captureRunning := false, captureRequested := false,
                 isListening := false } ∧
      (hookStep s (HookEv.recogError code)).2 =
        [Req.logI ("Speech recognition error: " ++ code)] ++
          (if code = "no-speech" || code = "aborted" then []
           else [Req.logE ("Speech recognition error: " ++ code)])) :=
  ⟨fun _ _ => ⟨rfl, rfl⟩, fun _ _ => ⟨rfl, rfl⟩⟩

/-- C9: handleModeChange (Login.tsx lines 445-463) clears the credential
draft exactly when the target mode is welcome; transitions into login,
register or help keep username and pin and clear only the error message. -/
theorem mode_change_frame (s : LoginState) (m : AuthMode) :
    (handleModeChange s m).1 =
      (if m = AuthMode.welcome then
        { s with mode := m, username := "", pin := "", error := "" }
       else { s with mode := m, error := "" }) ∧
    (handleModeChange s m).2 =
      [Effect.tone "click", Effect.speech (modeMessage m)] := by
  unfold handleModeChange
  constructor
  · split <;> rfl
  · rfl

/-- C4: credential accumulation.  On a fresh draft in login (and register)
mode, the utterance rahul then the utterance one two three four yield
username rahul and pin 1234; a single seven-digit-equivalent utterance
leaves the pin equal to the first six of those digits; and the pin is
always digits-only and capped at six characters, an invariant preserved by
every processed utterance. -/
theorem credential_accumulation :
    ((processCommand ⟨AuthMode.login, "", "", "", false⟩ "rahul").1.username = "rahul" ∧
     (processCommand ⟨AuthMode.login, "", "", "", false⟩ "rahul").1.pin = "" ∧
     (processCommand (processCommand ⟨AuthMode.login, "", "", "", false⟩ "rahul").1
        "one two three four").1.username = "rahul" ∧
     (processCommand (processCommand ⟨AuthMode.login, "", "", "", false⟩ "rahul").1
        "one two three four").1.pin = "1234") ∧
    ((processCommand (processCommand ⟨AuthMode.register, "", "", "", false⟩ "rahul").1
        "one two three four").1.username = "rahul" ∧
     (processCommand (processCommand ⟨AuthMode.register, "", "", "", false⟩ "rahul").1
        "one two three four").1.pin = "1234") ∧
    (processCommand ⟨AuthMode.login, "rahul", "", "", false⟩
      "one two three four five six seven").1.pin = "123456" ∧
    ∀ (s : LoginState) (cmd : String),
      s.pin.toList.all Char.isDigit = true → s.pin.length ≤ 6 →
      ((processCommand s cmd).1.pin.toList.all Char.isDigit = true ∧
       (processCommand s cmd).1.pin.length ≤ 6) := by
  refine ⟨by decide, by decide, by decide, ?_⟩
  intro s cmd hd hl
  unfold processCommand
  split
  · exact ⟨hd, hl⟩
  · have hdig : (digitsOf (jsTrim (jsToLower cmd))).all Char.isDigit = true :=
      filter_isDigit_all _
    rcases processCore_pin s (jsTrim (jsToLower cmd)) with h | h | h
    · rw [h]; exact ⟨hd, hl⟩
    · rw [h]; exact ⟨rfl, by decide⟩
    · rw [h]
      constructor
      · show ((s.pin.toList ++ digitsOf (jsTrim (jsToLower cmd))).take 6).all
          Char.isDigit = true
        apply all_take_of_all
        rw [List.all_append, hd, hdig]
        rfl
      · show ((s.pin.toList ++ digitsOf (jsTrim (jsToLower cmd))).take 6).length ≤ 6
        rw [List.length_take]
        exact Nat.min_le_left _ _

/-- C4 (witness for the pin invariant): from a two-digit pin, a seven-digit
utterance keeps the pin digits-only and at most six long. -/
theorem credential_accumulation_witness :
    (processCommand ⟨AuthMode.login, "rahul", "12", "", false⟩
      "nine nine nine nine nine nine nine").1.pin.toList.all Char.isDigit = true ∧
    (processCommand ⟨AuthMode.login, "rahul", "12", "", false⟩
      "nine nine nine nine nine nine nine").1.pin.length ≤ 6 :=
  credential_accumulation.2.2.2 ⟨AuthMode.login, "rahul", "12", "", false⟩
    "nine nine nine nine nine nine nine" (by decide) (by decide)

/-- C5 (counterexample): the silence claim fails.  The transcript xyz
matches no predicate of the login mode (no navigation, clear, submit,
username-capture or digit predicate holds), yet when a username is already
set the fall-through of Login.tsx lines 590-592 requests a spoken
reminder. -/
theorem unmatched_utterance_speaks_reminder :
    navLoginB "xyz" = false ∧ navRegisterB "xyz" = false ∧
    navHelpB "xyz" = false ∧ navBackB "xyz" = false ∧
    clearB "xyz" = false ∧ submitB "xyz" = false ∧
    hasNumbers "xyz" = false ∧ digitsOf "xyz" = [] ∧
    (processCommand ⟨AuthMode.login, "rahul", "", "", false⟩ "xyz").2.any
      Effect.isSpeech = true := by
  decide

/-- C5 (amended): an utterance matching no predicate of the active mode
never changes the state (UIMode, username, pin, error all unchanged), and
requests no speech output except in login or register mode with a username
already set, where a spoken username-and-PIN reminder is requested; on the
dashboard an unrecognized transcript changes nothing and is fully
silent. -/
theorem unmatched_utterance_frame :
    (∀ (s : LoginState) (cmd : String),
      jsTrim cmd ≠ "" →
      navLoginB (jsTrim (jsToLower cmd)) = false →
      navRegisterB (jsTrim (jsToLower cmd)) = false →
      navHelpB (jsTrim (jsToLower cmd)) = false →
      navBackB (jsTrim (jsToLower cmd)) = false →
      clearB (jsTrim (jsToLower cmd)) = false →
      submitB (jsTrim (jsToLower cmd)) = false →
      usernameCondB s (jsTrim (jsToLower cmd)) = false →
      digitsOf (jsTrim (jsToLower cmd)) = [] →
      ((processCommand s cmd).1 = s ∧
       (processCommand s cmd).2.filter Effect.isSpeech =
         (if (s.mode = AuthMode.login ∨ s.mode = AuthMode.register) ∧
             s.username ≠ ""
          then [Effect.speech (reminderMsg s.username)] else []))) ∧
    (∀ (d : DashState) (cmd : String),
      dashClassify (jsTrim (jsToLower cmd)) = DIntent.unrecognized →
      ((processDashCommand d cmd).1 = d ∧
       (processDashCommand d cmd).2.filter Effect.isSpeech = [])) := by
  constructor
  · intro s cmd h0 h1 h2 h3 h4 h5 h6 h7 h8
    have hcl := loginClassify_unmatched s (jsTrim (jsToLower cmd))
      h1 h2 h3 h4 h5 h6 h7 h8
    by_cases hif : (s.mode = AuthMode.login ∨ s.mode = AuthMode.register) ∧
        s.username ≠ "" <;>
      simp [processCommand, h0, processCore, hcl, hif, Effect.isSpeech]
  · intro d cmd h
    by_cases h0 : cmd = "" <;>
      cases hm : d.isMuted <;>
        simp [processDashCommand, h0, h, hm, Effect.isSpeech]

/-- C5 (witness for the amended theorem): the unmatched transcript xyz in
login mode with username rahul leaves the state unchanged and requests
exactly the spoken reminder. -/
theorem unmatched_utterance_frame_witness :
    (processCommand ⟨AuthMode.login, "rahul", "", "", false⟩ "xyz").1 =
      ⟨AuthMode.login, "rahul", "", "", false⟩ ∧
    (processCommand ⟨AuthMode.login, "rahul", "", "", false⟩ "xyz").2.filter
      Effect.isSpeech =
      (if (AuthMode.login = AuthMode.login ∨ AuthMode.login = AuthMode.register) ∧
          ("rahul" : String) ≠ ""
       then [Effect.speech (reminderMsg "rahul")] else []) :=
  unmatched_utterance_frame.1 ⟨AuthMode.login, "rahul", "", "", false⟩ "xyz"
    (by decide) (by decide) (by decide) (by decide) (by decide) (by decide)
    (by decide) (by decide) (by decide)

/-- C7 (counterexample): the claimed navigation-first tier order fails on
the dashboard.  The transcript teach me at home matches both the content
keyword teach and the navigation keyword home, and the dispatch chain of
Dashboard.tsx lines 163-192 resolves it to the teach intent, not the home
intent. -/
theorem content_keyword_beats_navigation :
    strContains "teach me at home" "home" = true ∧
    strContains "teach me at home" "teach" = true ∧
    dashClassify "teach me at home" = DIntent.teach ∧
    DIntent.teach ≠ DIntent.home := by
  decide

/-- C7 (amended): the evaluation order is fixed but not navigation-first.
The dashboard dispatch equals first-match resolution over its ordered
keyword table, in which the mode-specific content keywords precede home,
repeat, logout and help; for any transcript, the first table entry with a
matching keyword wins.  On the login screen the navigation keywords are
tested before the clear and submit fallbacks, which are tested before
credential content: help clear resolves to the help mode, and confirmation
triggers submit (failing validation) instead of being captured as a
username. -/
theorem classifier_evaluation_order :
    (∀ c : String, dashClassify c = firstMatch dashTable c) ∧
    (∀ (c : String) (pre post : List (List String × DIntent))
        (e : List String × DIntent),
      dashTable = pre ++ e :: post →
      (∀ p ∈ pre, p.1.any (fun k => strContains c k) = false) →
      e.1.any (fun k => strContains c k) = true →
      dashClassify c = e.2) ∧
    (processCommand ⟨AuthMode.login, "", "", "", false⟩ "help clear").1.mode =
      AuthMode.help ∧
    (processCommand ⟨AuthMode.login, "", "", "", false⟩ "confirmation").1.error =
      "Please provide username and at least 4-digit pin" ∧
    (processCommand ⟨AuthMode.login, "", "", "", false⟩ "confirmation").1.username =
      "" := by
  refine ⟨dashClassify_eq_firstMatch, ?_, by decide, by decide, by decide⟩
  intro c pre post e hsplit hpre he
  rw [dashClassify_eq_firstMatch c, hsplit]
  exact firstMatch_of_split c pre post e hpre he

/-- C7 (witness for the amended theorem): instantiating the first-match
property at the repeat entry of the table, on the transcript say again. -/
theorem classifier_evaluation_order_witness :
    dashClassify "say again" = DIntent.repeatCmd :=
  classifier_evaluation_order.2.1 "say again"
    [(["teach me", "teach"], DIntent.teach),
     (["exam", "prepare"], DIntent.exam),
     (["level", "check"], DIntent.level),
     (["scheme", "government"], DIntent.schemes),
     (["job", "work", "employment"], DIntent.jobs),
     (["continue", "resume", "history"], DIntent.history),
     (["home", "dashboard", "main menu"], DIntent.home)]
    [(["logout", "log out", "exit"], DIntent.logout),
     (["help"], DIntent.help)]
    (["repeat", "say again"], DIntent.repeatCmd)
    (by decide) (by decide) (by decide)

/-- C10: the username is write-once with respect to voice input.  In login
or register mode with a username already set, processing any utterance
either leaves the username unchanged or empties it, and it is emptied only
by a clear command or a back-to-welcome navigation; the pin is only ever
kept, cleared, or extended by the utterance's digits and truncated to six
characters. -/
theorem username_write_once (s : LoginState) (cmd : String)
    (_hm : s.mode = AuthMode.login ∨ s.mode = AuthMode.register)
    (hu : s.username ≠ "") :
    ((processCommand s cmd).1.username = s.username ∨
      ((processCommand s cmd).1.username = "" ∧
        (clearB (jsTrim (jsToLower cmd)) = true ∨
         navBackB (jsTrim (jsToLower cmd)) = true))) ∧
    ((processCommand s cmd).1.pin = s.pin ∨ (processCommand s cmd).1.pin = "" ∨
      (processCommand s cmd).1.pin =
        String.mk ((s.pin.toList ++ digitsOf (jsTrim (jsToLower cmd))).take 6)) := by
  unfold processCommand
  split
  · exact ⟨Or.inl rfl, Or.inl rfl⟩
  · exact ⟨processCore_username s _ hu, processCore_pin s _⟩

/-- C10 (witness): the utterance five in login mode with username rahul and
pin 12 keeps the username and appends the digit. -/
theorem username_write_once_witness :
    ((processCommand ⟨AuthMode.login, "rahul", "12", "", false⟩ "five").1.username =
        "rahul" ∨
      ((processCommand ⟨AuthMode.login, "rahul", "12", "", false⟩ "five").1.username =
          "" ∧
        (clearB (jsTrim (jsToLower "five")) = true ∨
         navBackB (jsTrim (jsToLower "five")) = true))) ∧
    ((processCommand ⟨AuthMode.login, "rahul", "12", "", false⟩ "five").1.pin =
        "12" ∨
      (processCommand ⟨AuthMode.login, "rahul", "12", "", false⟩ "five").1.pin =
        "" ∨
      (processCommand ⟨AuthMode.login, "rahul", "12", "", false⟩ "five").1.pin =
        String.mk ((("12" : String).toList ++
          digitsOf (jsTrim (jsToLower "five"))).take 6)) :=
  username_write_once ⟨AuthMode.login, "rahul", "12", "", false⟩ "five"
    (Or.inl rfl) (by decide)

end BlindTeacher
